import Mathlib

/-!
The go-rest-api-template server: service lifecycle and health probes.

A shallow embedding of the four Go source files

* `internal/config/config.go`   (`Config`, `Config.Validate`, `Load`)
* `internal/handler/health.go`  (`HealthHandler.Health`, `HealthHandler.Ready`)
* `internal/server/server.go`   (`New`, `setupMiddleware`, `setupRoutes`)
* `cmd/server/main.go`          (`runServe`, `main`)

followed by theorems about configuration validation, the health endpoints,
the middleware chain and the lifecycle of the serve command.

Conventions of the embedding.  A Go function that may panic returns
`Except PanicValue α`; a Go `error` result is an `Option String` (`none` is
`nil`, `some e` is an error whose `Error()` text is `e`); Go `int` is `Int`.
Calls into third-party packages (viper, pgx, gin, net/http) are not part of
the repository: their results are inputs of the embedding, and the few
pieces of gin control flow the middleware chain relies on are written out
with a note saying so.
-/

namespace GoRestApi

/-! ## internal/config/config.go -/

namespace config

/-- The struct `Config` (config.go:11-15). -/
structure Config where
  Port : Int
  DatabaseURL : String
  Debug : Bool
  deriving DecidableEq, Repr

/-- The text of the error built in `Validate` (config.go:43). -/
def errDatabaseURLRequired : String :=
  "database_url is required (set via --db flag or APP_DATABASE_URL env var)"

/-- Go `func (c *Config) Validate() error` (config.go:41-46). -/
def Config.Validate (c : Config) : Option String :=
  if c.DatabaseURL = "" then
    some errDatabaseURLRequired
  else
    none

/-- Go `func Load() (*Config, error)` (config.go:19-38).  The argument is the
outcome of `viper.Unmarshal(&cfg)` on the merged layers (flags, `APP_`
environment variables, defaults): either the error it returned or the
`Config` it filled in. -/
def Load (unmarshal : Except String Config) : Except String Config :=
  match unmarshal with
  | .error err => .error ("failed to unmarshal config: " ++ err)
  | .ok cfg =>
    match cfg.Validate with
    | some err => .error err
    | none => .ok cfg

end config

/-! ## The slice of `time`, `net/http`, `log/slog`, pgx and gin used by the code -/

namespace time

/-- A reading of `time.Now()`: the instant in nanoseconds, and the text that
`.UTC().Format(time.RFC3339)` renders for it.  Both are supplied by the
environment. -/
structure Time where
  unixNano : Nat
  rfc3339 : String
  deriving DecidableEq, Repr

/-- Go `time.Since(start)` when the clock now reads `now`. -/
def Since (now start : Time) : Nat :=
  now.unixNano - start.unixNano

end time

namespace http

def StatusOK : Nat := 200
def StatusMovedPermanently : Nat := 301
def StatusTemporaryRedirect : Nat := 307
def StatusNotFound : Nat := 404
def StatusInternalServerError : Nat := 500
def StatusServiceUnavailable : Nat := 503

/-- The fields of `*http.Request` that the code reads; `ClientIP` is what
`c.ClientIP()` computes from the request. -/
structure Request where
  Method : String
  Path : String
  RawQuery : String
  ClientIP : String
  deriving DecidableEq, Repr

end http

namespace slog

/-- An attribute value: `slog.String`, `slog.Int`, `slog.Duration`. -/
inductive Value where
  | String (s : String)
  | Int (i : Int)
  | Duration (d : Nat)
  deriving DecidableEq, Repr

/-- One record handed to the JSON handler of the logger. -/
structure Record where
  Level : String
  Message : String
  Attrs : List (String × Value)
  deriving DecidableEq, Repr

end slog

namespace pgxpool

/-- A `*pgxpool.Pool` handle, represented by what a query on it does: the
round trip succeeds, it fails with an error (dependency unreachable, pool
closed, deadline exceeded), or the handle is nil and the call panics. -/
inductive Pool where
  | reachable
  | failing (err : String)
  | nilHandle
  deriving DecidableEq, Repr

/-- The statement `err := db.QueryRow(ctx, sql).Scan(&result)`: `.error v` is
a panic with value `v`, `.ok err` is the returned `err`. -/
def Pool.QueryRowScan (db : Pool) (_sql : String) : Except String (Option String) :=
  match db with
  | .reachable => .ok none
  | .failing err => .ok (some err)
  | .nilHandle => .error "runtime error: invalid memory address or nil pointer dereference"

end pgxpool

namespace gin

/-- A Go `map[string]string`, as an association list without duplicate keys. -/
abbrev StringMap := List (String × String)

/-- The assignment `m[k] = v`. -/
def StringMap.set (m : StringMap) (k v : String) : StringMap :=
  (m.filter (fun kv => kv.1 ≠ k)) ++ [(k, v)]

/-- A field of a rendered JSON object: a string or a string-to-string map. -/
inductive JSONField where
  | str (s : String)
  | obj (m : StringMap)
  deriving DecidableEq, Repr

/-- A rendered JSON object, keyed by the `json:"..."` tags of the struct. -/
abbrev JSONObject := List (String × JSONField)

/-- What has been written to the response: nothing, a JSON object, a text, or
the redirect answer of `http.Redirect` to a location. -/
inductive Body where
  | empty
  | json (o : JSONObject)
  | text (s : String)
  | redirect (location : String)
  deriving DecidableEq, Repr

/-- The state of `c.Writer`: the status code and the body. -/
structure ResponseWriter where
  status : Nat
  body : Body
  deriving DecidableEq, Repr

/-- The per-request state `*gin.Context` as the handlers see it.  `now` is the
reading of `time.Now()` at the current point of the request; `queries` is a
ghost field listing the statements sent to the database pool while serving
the request. -/
structure Context where
  Request : http.Request
  Writer : ResponseWriter
  now : time.Time
  queries : List String
  deriving DecidableEq, Repr

/-- Go `c.JSON(code, obj)`: set the status and render `obj` as the body. -/
def Context.JSON (c : Context) (code : Nat) (obj : JSONObject) : Context :=
  { c with Writer := { status := code, body := .json obj } }

/-- Go `c.AbortWithStatus(code)`: set the status, write no body. -/
def Context.AbortWithStatus (c : Context) (code : Nat) : Context :=
  { c with Writer := { c.Writer with status := code } }

/-- The value carried by a Go `panic`. -/
abbrev PanicValue := String

/-- A route handler, `gin.HandlerFunc`: it returns the context it leaves
behind, or panics.  A handler that panics is taken to have written nothing
to the response before the fault. -/
abbrev HandlerFunc := Context → Except PanicValue Context

end gin

/-! ## internal/handler/health.go -/

namespace handler

open gin

/-- The struct `HealthHandler` (health.go:13-15). -/
structure HealthHandler where
  db : pgxpool.Pool
  deriving DecidableEq, Repr

/-- Go `func NewHealthHandler(db *pgxpool.Pool) *HealthHandler` (health.go:18-20). -/
def NewHealthHandler (db : pgxpool.Pool) : HealthHandler :=
  { db := db }

/-- The struct `HealthResponse` (health.go:23-26). -/
structure HealthResponse where
  Status : String
  Timestamp : String
  deriving DecidableEq, Repr

/-- The struct `ReadyResponse` (health.go:29-33). -/
structure ReadyResponse where
  Status : String
  Timestamp : String
  Checks : StringMap
  deriving DecidableEq, Repr

/-- JSON rendering of a `HealthResponse` by its field tags. -/
def HealthResponse.toJSON (r : HealthResponse) : JSONObject :=
  [("status", .str r.Status), ("timestamp", .str r.Timestamp)]

/-- JSON rendering of a `ReadyResponse` by its field tags. -/
def ReadyResponse.toJSON (r : ReadyResponse) : JSONObject :=
  [("status", .str r.Status), ("timestamp", .str r.Timestamp), ("checks", .obj r.Checks)]

/-- Go `func (h *HealthHandler) Health(c *gin.Context)` (health.go:37-42). -/
def HealthHandler.Health (_h : HealthHandler) : HandlerFunc := fun c =>
  .ok (c.JSON http.StatusOK
    (HealthResponse.toJSON { Status := "ok", Timestamp := c.now.rfc3339 }))

/-- Go `func (h *HealthHandler) Ready(c *gin.Context)` (health.go:46-70).  The
5-second deadline of the probe's context appears only as one of the errors
the probe can return. -/
def HealthHandler.Ready (h : HealthHandler) : HandlerFunc := fun c =>
  let checks : StringMap := []
  let status := http.StatusOK
  let overallStatus := "ok"
  match h.db.QueryRowScan "SELECT 1" with
  | .error v => .error v
  | .ok err =>
    let c := { c with queries := c.queries ++ ["SELECT 1"] }
    match err with
    | some e =>
      let checks := checks.set "database" ("unhealthy: " ++ e)
      let status := http.StatusServiceUnavailable
      let overallStatus := "unhealthy"
      .ok (c.JSON status (ReadyResponse.toJSON
        { Status := overallStatus, Timestamp := c.now.rfc3339, Checks := checks }))
    | none =>
      let checks := checks.set "database" "healthy"
      .ok (c.JSON status (ReadyResponse.toJSON
        { Status := overallStatus, Timestamp := c.now.rfc3339, Checks := checks }))

end handler

/-! ## gin: handlers that log, middleware, the engine -/

namespace gin

/-- A handler of the chain together with the server's logger: from the context
and the records logged so far to the outcome and the records logged
afterwards.  Records logged before a panic stay logged. -/
abbrev Handler := Context → List slog.Record → Except PanicValue Context × List slog.Record

/-- A route handler as the last element of a chain: it has no logger. -/
def HandlerFunc.run (h : HandlerFunc) : Handler := fun c log =>
  (h c, log)

/-- A middleware that calls `c.Next()` once: `next` is the rest of the chain,
run inside the middleware's own call frame. -/
abbrev Middleware := Handler → Handler

/-- Modelled from the spec: `gin.Recovery()` is third-party code that is not
among the sources; it is the "panic containment" stage of §4.4, "any
unrecovered fault raised while producing a response is caught at this layer,
converted into a generic server-fault response".  Its deferred `recover()`
catches a panic of the rest of the chain and answers
`c.AbortWithStatus(500)`; its report of the panic goes to gin's own error
writer, not to the server's logger. -/
def Recovery : Middleware := fun next c log =>
  match next c log with
  | (.ok c', log') => (.ok c', log')
  | (.error _, log') => (.ok (c.AbortWithStatus http.StatusInternalServerError), log')

/-- A registered route with the middleware that was in force at registration. -/
structure RouteInfo where
  Method : String
  Path : String
  Handlers : List Middleware
  HandlerFunc : HandlerFunc

/-- The router `*gin.Engine`. -/
structure Engine where
  mode : String
  RedirectTrailingSlash : Bool
  Handlers : List Middleware
  routes : List RouteInfo

def DebugMode : String := "debug"
def ReleaseMode : String := "release"

/-- Go `gin.New()` under the mode chosen by `gin.SetMode`: no middleware, no
routes, and gin's default `RedirectTrailingSlash: true`. -/
def New (mode : String) : Engine :=
  { mode := mode, RedirectTrailingSlash := true, Handlers := [], routes := [] }

/-- Go `router.Use(m)`. -/
def Engine.Use (e : Engine) (m : Middleware) : Engine :=
  { e with Handlers := e.Handlers ++ [m] }

/-- Go `router.GET(path, h)`. -/
def Engine.GET (e : Engine) (path : String) (h : HandlerFunc) : Engine :=
  { e with routes := e.routes ++
      [{ Method := "GET", Path := path, Handlers := e.Handlers, HandlerFunc := h }] }

/-- The chain `m₁ (m₂ (… h))`: each middleware runs the rest inside `c.Next()`. -/
def chain (ms : List Middleware) (h : Handler) : Handler :=
  ms.foldr (fun m rest => m rest) h

/-- Whether a route pattern accepts a path: a pattern ending in the catch-all
`*any` accepts every path that extends the part before it, any other pattern
only itself. -/
def pathMatches (pattern path : String) : Bool :=
  if pattern.toList.drop (pattern.length - 4) = "*any".toList then
    (pattern.toList.take (pattern.length - 4)).isPrefixOf path.toList
  else
    pattern = path

/-- Route lookup by method and path. -/
def Engine.find (e : Engine) (method path : String) : Option RouteInfo :=
  e.routes.find? (fun r => decide (r.Method = method) && pathMatches r.Path path)

/-- The answer to a request that matches no route. -/
def noRoute : HandlerFunc := fun c =>
  .ok { c with Writer := { status := http.StatusNotFound, body := .text "404 page not found" } }

/-- The context a request starts with: status 200, nothing written. -/
def Context.fresh (req : http.Request) (now : time.Time) : Context :=
  { Request := req, Writer := { status := http.StatusOK, body := .empty },
    now := now, queries := [] }

/-- Whether a route pattern would accept the path once a trailing slash is
added to it or taken from it (gin's `tsr` recommendation): for a catch-all
pattern, the path is the part before `*any` without its final slash. -/
def trailingSlashMatches (pattern path : String) : Bool :=
  if pattern.toList.drop (pattern.length - 4) = "*any".toList then
    pattern.toList.take (pattern.length - 4) = path.toList ++ "/".toList
  else
    pattern = path ++ "/" || pattern ++ "/" = path

/-- Whether gin answers the request with a trailing-slash redirect: the engine
has `RedirectTrailingSlash`, the method is not CONNECT, the path is not `/`,
and a route of the request's method accepts the path with the slash toggled. -/
def Engine.redirects (e : Engine) (method path : String) : Bool :=
  e.RedirectTrailingSlash && decide (method ≠ "CONNECT") && decide (path ≠ "/") &&
    e.routes.any (fun r => decide (r.Method = method) && trailingSlashMatches r.Path path)

/-- The path with its trailing slash toggled, as gin's `redirectTrailingSlash`
rewrites it: a final slash of a path longer than `/` is removed, otherwise one
is added. -/
def toggleTrailingSlash (path : String) : String :=
  if 1 < path.length ∧ path.toList.drop (path.length - 1) = "/".toList then
    String.mk (path.toList.take (path.length - 1))
  else
    path ++ "/"

/-- The answer of gin's `redirectRequest`: status 301 for GET and 307 for any
other method, pointing to the request URL with the rewritten path. -/
def redirectTrailingSlash (c : Context) : Context :=
  let path := toggleTrailingSlash c.Request.Path
  let location := if c.Request.RawQuery = "" then path else path ++ "?" ++ c.Request.RawQuery
  let code :=
    if c.Request.Method = "GET" then http.StatusMovedPermanently
    else http.StatusTemporaryRedirect
  { c with
    Request := { c.Request with Path := path },
    Writer := { status := code, body := .redirect location } }

/-- Go `engine.ServeHTTP`, following gin's `handleHTTPRequest`: a request that
matches a route runs the chain registered with it on a fresh context; a
request that matches none but would with its trailing slash toggled is
answered with a redirect, and no middleware runs; any other request passes
through the engine's middleware to the 404 answer. -/
def Engine.ServeHTTP (e : Engine) (req : http.Request) (now : time.Time) :
    List slog.Record → Except PanicValue Context × List slog.Record :=
  match e.find req.Method req.Path with
  | some r => chain r.Handlers r.HandlerFunc.run (Context.fresh req now)
  | none =>
    if e.redirects req.Method req.Path then
      fun log => (.ok (redirectTrailingSlash (Context.fresh req now)), log)
    else
      chain e.Handlers noRoute.run (Context.fresh req now)

end gin

/-! ## internal/server/server.go -/

namespace server

open gin

/-- The struct `Server` (server.go:16-20).  Its `logger` field is the sink
that the handlers of the chain thread through as a list of records. -/
structure Server where
  router : Engine
  db : pgxpool.Pool

/-- The record emitted by `s.logger.Info("request", ...)` (server.go:60-67). -/
def requestRecord (method path query : String) (status : Nat) (latency : Nat)
    (clientIP : String) : slog.Record :=
  { Level := "INFO", Message := "request",
    Attrs := [("method", .String method), ("path", .String path), ("query", .String query),
      ("status", .Int status), ("latency", .Duration latency),
      ("client_ip", .String clientIP)] }

/-- The request logging middleware, the closure of server.go:50-68.  The
statements after `c.Next()` are not deferred: when `c.Next()` panics the
closure is unwound and they do not run. -/
def requestLogger : Middleware := fun next c log =>
  let start := c.now
  let path := c.Request.Path
  let query := c.Request.RawQuery
  match next c log with
  | (.error v, log') => (.error v, log')
  | (.ok c', log') =>
    let latency := time.Since c'.now start
    let status := c'.Writer.status
    (.ok c', log' ++ [requestRecord c'.Request.Method path query status latency
      c'.Request.ClientIP])

/-- Go `func (s *Server) setupMiddleware()` (server.go:45-69). -/
def Server.setupMiddleware (s : Server) : Server :=
  { s with router := (s.router.Use Recovery).Use requestLogger }

/-- Go `func (s *Server) setupRoutes()` (server.go:72-80).  `swagger` stands for
the third-party handler `ginSwagger.WrapHandler(swaggerFiles.Handler)`. -/
def Server.setupRoutes (s : Server) (swagger : HandlerFunc) : Server :=
  let healthHandler := handler.NewHealthHandler s.db
  let router := s.router.GET "/health" healthHandler.Health
  let router := router.GET "/ready" healthHandler.Ready
  let router := router.GET "/swagger/*any" swagger
  { s with router := router }

/-- Go `func New(db *pgxpool.Pool, logger *slog.Logger, debug bool) *Server`
(server.go:23-42). -/
def New (db : pgxpool.Pool) (debug : Bool) (swagger : HandlerFunc) : Server :=
  let router := gin.New (if debug then DebugMode else ReleaseMode)
  let s : Server := { router := router, db := db }
  (s.setupMiddleware).setupRoutes swagger

/-- Go `func (s *Server) Router() *gin.Engine` (server.go:83-85). -/
def Server.Router (s : Server) : Engine :=
  s.router

end server

/-! ## cmd/server/main.go -/

namespace cmd

open config

/-- What a run of the serve command does, in program order. -/
inductive Event where
  | loadConfig (ok : Bool)      -- `config.Load()` returned (main.go:64)
  | log (msg : String)          -- a lifecycle record of `logger`
  | connect (ok : Bool)         -- `database.Connect` returned (main.go:86)
  | listenAndServe              -- the goroutine calls `ListenAndServe`: the listener binds (main.go:108)
  | notify                      -- `signal.Notify(quit, SIGINT, SIGTERM)` (main.go:116)
  | signal                      -- `<-quit` received a signal (main.go:117)
  | shutdown (ok : Bool)        -- `httpServer.Shutdown` returned (main.go:125)
  | cancel                      -- the deferred `cancel()` (main.go:123)
  | dbClose                     -- the deferred `db.Close()` (main.go:90)
  | stderr (msg : String)       -- `fmt.Fprintln(os.Stderr, err)` (main.go:29)
  | exit (code : Nat)           -- `os.Exit(code)`
  deriving DecidableEq, Repr

/-- The outcomes of the external calls of one run.
* `unmarshal`: what `viper.Unmarshal` yields inside `config.Load`;
* `connect`: what `database.Connect(ctx, url)` returns for a URL;
* `listen`: `some e` when `ListenAndServe` returns an error `e` other than
  `http.ErrServerClosed` while the main path waits for a signal, `none` when
  it serves until `Shutdown` and returns `http.ErrServerClosed`;
* `listenerFirst`: whether the goroutine reaches `ListenAndServe` before the
  main path reaches `signal.Notify`;
* `shutdown`: the error returned by `httpServer.Shutdown`, which includes the
  30-second drain deadline having elapsed. -/
structure World where
  unmarshal : Except String Config
  connect : String → Except String pgxpool.Pool
  listen : Option String
  listenerFirst : Bool
  shutdown : Option String

/-- How `runServe` ends: it returns its `error`, or the process is ended from
inside it by `os.Exit`. -/
inductive Termination where
  | returned (err : Option String)
  | exited (code : Nat)
  deriving DecidableEq, Repr

/-- The statements of main.go:105-116 up to the point where the main path
blocks: the goroutine's first two steps and `signal.Notify`, in the order the
scheduler picks. -/
def startListener (listenerFirst : Bool) : List Event :=
  if listenerFirst then
    [.log "server listening", .listenAndServe, .notify]
  else
    [.notify, .log "server listening", .listenAndServe]

/-- Go `func runServe(cmd *cobra.Command, args []string) error` (main.go:62-131):
the events of the run and how it ends.  Deferred calls run when `runServe`
returns, last deferred first; `os.Exit` in the goroutine ends the process
without running them. -/
def runServe (w : World) : List Event × Termination :=
  match Load w.unmarshal with
  | .error err =>
    ([.loadConfig false], .returned (some ("failed to load config: " ++ err)))
  | .ok cfg =>
    let t := [.loadConfig true, .log "starting server"]
    match w.connect cfg.DatabaseURL with
    | .error err =>
      (t ++ [.connect false], .returned (some ("failed to connect to database: " ++ err)))
    | .ok _db =>
      let t := t ++ [.connect true, .log "connected to database"]
      let t := t ++ startListener w.listenerFirst
      match w.listen with
      | some _err =>
        (t ++ [.log "server error", .exit 1], .exited 1)
      | none =>
        let t := t ++ [.signal, .log "shutting down server..."]
        match w.shutdown with
        | some err =>
          (t ++ [.shutdown false, .cancel, .dbClose],
            .returned (some ("server forced to shutdown: " ++ err)))
        | none =>
          (t ++ [.shutdown true, .log "server stopped", .cancel, .dbClose], .returned none)

/-- Go `func main()` (main.go:27-32) for the `serve` command, whose `RunE` is
`runServe`: the events of the process and its exit code. -/
def main (w : World) : List Event × Nat :=
  match runServe w with
  | (t, .exited code) => (t, code)
  | (t, .returned (some err)) => (t ++ [.stderr err, .exit 1], 1)
  | (t, .returned none) => (t, 0)

/-- The exit code of the process. -/
def exitCode (w : World) : Nat :=
  (main w).2

/-- The events of the process. -/
def trace (w : World) : List Event :=
  (main w).1

/-- The event sequences that `runServe` can produce, one for each way the
external calls can turn out and each schedule of the listener goroutine. -/
def possibleTraces : List (List Event) :=
  [[Event.loadConfig false],
   [.loadConfig true, .log "starting server", .connect false],
   [.loadConfig true, .log "starting server", .connect true, .log "connected to database",
     .log "server listening", .listenAndServe, .notify, .log "server error", .exit 1],
   [.loadConfig true, .log "starting server", .connect true, .log "connected to database",
     .notify, .log "server listening", .listenAndServe, .log "server error", .exit 1],
   [.loadConfig true, .log "starting server", .connect true, .log "connected to database",
     .log "server listening", .listenAndServe, .notify, .signal,
     .log "shutting down server...", .shutdown false, .cancel, .dbClose],
   [.loadConfig true, .log "starting server", .connect true, .log "connected to database",
     .notify, .log "server listening", .listenAndServe, .signal,
     .log "shutting down server...", .shutdown false, .cancel, .dbClose],
   [.loadConfig true, .log "starting server", .connect true, .log "connected to database",
     .log "server listening", .listenAndServe, .notify, .signal,
     .log "shutting down server...", .shutdown true, .log "server stopped", .cancel,
     .dbClose],
   [.loadConfig true, .log "starting server", .connect true, .log "connected to database",
     .notify, .log "server listening", .listenAndServe, .signal,
     .log "shutting down server...", .shutdown true, .log "server stopped", .cancel,
     .dbClose]]

end cmd

/-! ## Concrete inputs used by the witnesses and counterexamples -/

namespace examples

/-- A configuration as `serve --port 0 --db postgres://localhost/app` yields it. -/
def portZero : config.Config :=
  { Port := 0, DatabaseURL := "postgres://localhost/app", Debug := false }

/-- The default port with a database URL. -/
def defaults : config.Config :=
  { Port := 8080, DatabaseURL := "postgres://localhost/app", Debug := false }

/-- A run in which the port is already taken: configuration and connection
succeed, `ListenAndServe` returns a bind error. -/
def listenerFails : cmd.World :=
  { unmarshal := .ok defaults,
    connect := fun _ => .ok .reachable,
    listen := some "listen tcp :8080: bind: address already in use",
    listenerFirst := true,
    shutdown := none }

/-- A run that serves until a signal arrives and drains cleanly. -/
def cleanShutdown : cmd.World :=
  { unmarshal := .ok defaults,
    connect := fun _ => .ok .reachable,
    listen := none,
    listenerFirst := true,
    shutdown := none }

/-- A run whose drain does not finish within the deadline. -/
def forcedShutdown : cmd.World :=
  { unmarshal := .ok defaults,
    connect := fun _ => .ok .reachable,
    listen := none,
    listenerFirst := false,
    shutdown := some "context deadline exceeded" }

end examples

/-! ## Theorems -/

section Config

open config

/-- C1: `Validate` returns an error exactly when `DatabaseURL` is the empty
string; the result does not change with `Port` or `Debug`; and once the merged
layers are unmarshalled into `c`, `Load` fails exactly when `c.DatabaseURL` is
empty, with the error of `Validate`, and otherwise returns `c` itself. -/
theorem C1_validate_rejects_exactly_empty_url (c : Config) :
    (c.Validate.isSome = true ↔ c.DatabaseURL = "") ∧
    (∀ (port : Int) (debug : Bool),
      ({ c with Port := port, Debug := debug } : Config).Validate = c.Validate) ∧
    ((∃ err, Load (.ok c) = .error err) ↔ c.DatabaseURL = "") ∧
    (Load (.ok c) = .error errDatabaseURLRequired ↔ c.DatabaseURL = "") ∧
    (Load (.ok c) = .ok c ↔ c.DatabaseURL ≠ "") := by
  by_cases h : c.DatabaseURL = "" <;> simp [Config.Validate, Load, h]

/-- C9 as stated fails: the configuration with port 0 and a database URL
passes `Validate` and is returned by `Load`, yet its port is not greater
than 0. -/
theorem C9_port_zero_passes_the_gate :
    examples.portZero.Validate = none ∧
    Load (.ok examples.portZero) = .ok examples.portZero ∧
    ¬ (0 < examples.portZero.Port ∧ examples.portZero.DatabaseURL ≠ "") := by
  refine ⟨by decide, rfl, ?_⟩
  intro h
  exact absurd h.1 (by decide)

/-- C9 amended: a configuration that passes the gate (`Validate` returns no
error, or `Load` returned it) has a non-empty `DatabaseURL`; the gate puts no
constraint on `Port`: the same configuration with any integer port passes
`Validate` as well. -/
theorem C9_gate_guarantees_nonempty_url (c : Config)
    (h : c.Validate = none ∨ ∃ u, Load u = .ok c) :
    c.DatabaseURL ≠ "" ∧
    ∀ port : Int, ({ c with Port := port } : Config).Validate = none := by
  have hv : c.Validate = none := by
    rcases h with h | ⟨u, hu⟩
    · exact h
    · cases u with
      | error e => simp [Load] at hu
      | ok cfg =>
        cases hcfg : cfg.Validate with
        | some e => simp [Load, hcfg] at hu
        | none =>
          simp [Load, hcfg] at hu
          exact hu ▸ hcfg
  have hne : c.DatabaseURL ≠ "" := by
    intro he
    simp [Config.Validate, he] at hv
  exact ⟨hne, fun port => by simp [Config.Validate, hne]⟩

/-- The amended C9 at the default configuration. -/
theorem C9_gate_guarantees_nonempty_url_witness :
    examples.defaults.DatabaseURL ≠ "" ∧
    ∀ port : Int, ({ examples.defaults with Port := port } : Config).Validate = none :=
  C9_gate_guarantees_nonempty_url examples.defaults (Or.inl (by decide))

end Config

section Health

open gin handler

/-- C2: the response of `Ready` is determined by the outcome of its one probe
`SELECT 1`.  When the probe returns no error the handler returns with status
200, body status "ok" and the single check `database: healthy`; when it
returns the error `e`, with status 503, body status "unhealthy" and the single
check `database: unhealthy: e`; in both cases exactly one statement was sent
to the pool.  Whenever `Ready` returns, it has produced one of these two
responses, and its status is 200 if and only if the probe returned no error. -/
theorem C2_ready_reflects_the_probe (h : HealthHandler) (c : Context) :
    (h.db.QueryRowScan "SELECT 1" = .ok none →
      h.Ready c = .ok
        { c with
          Writer :=
            { status := 200,
              body := .json [("status", .str "ok"), ("timestamp", .str c.now.rfc3339),
                ("checks", .obj [("database", "healthy")])] },
          queries := c.queries ++ ["SELECT 1"] }) ∧
    (∀ e, h.db.QueryRowScan "SELECT 1" = .ok (some e) →
      h.Ready c = .ok
        { c with
          Writer :=
            { status := 503,
              body := .json [("status", .str "unhealthy"), ("timestamp", .str c.now.rfc3339),
                ("checks", .obj [("database", "unhealthy: " ++ e)])] },
          queries := c.queries ++ ["SELECT 1"] }) ∧
    (∀ c', h.Ready c = .ok c' →
      (c'.Writer.status = 200 ↔ h.db.QueryRowScan "SELECT 1" = .ok none) ∧
      ((h.db.QueryRowScan "SELECT 1" = .ok none ∧
          c'.Writer =
            { status := 200,
              body := .json [("status", .str "ok"), ("timestamp", .str c.now.rfc3339),
                ("checks", .obj [("database", "healthy")])] }) ∨
        (∃ e, h.db.QueryRowScan "SELECT 1" = .ok (some e) ∧
          c'.Writer =
            { status := 503,
              body := .json [("status", .str "unhealthy"), ("timestamp", .str c.now.rfc3339),
                ("checks", .obj [("database", "unhealthy: " ++ e)])] }))) := by
  rcases h with ⟨db⟩
  cases db with
  | reachable =>
    refine ⟨fun _ => rfl, fun e he => by simp [pgxpool.Pool.QueryRowScan] at he, ?_⟩
    intro c' hc'
    simp [HealthHandler.Ready, pgxpool.Pool.QueryRowScan, Context.JSON, http.StatusOK,
      ReadyResponse.toJSON, StringMap.set] at hc'
    subst hc'
    simp [pgxpool.Pool.QueryRowScan]
  | failing err =>
    refine ⟨fun he => by simp [pgxpool.Pool.QueryRowScan] at he, ?_, ?_⟩
    · intro e he
      simp [pgxpool.Pool.QueryRowScan] at he
      subst he
      rfl
    · intro c' hc'
      simp [HealthHandler.Ready, pgxpool.Pool.QueryRowScan, Context.JSON,
        http.StatusServiceUnavailable, ReadyResponse.toJSON, StringMap.set] at hc'
      subst hc'
      simp [pgxpool.Pool.QueryRowScan]
  | nilHandle =>
    refine ⟨fun he => by simp [pgxpool.Pool.QueryRowScan] at he,
      fun e he => by simp [pgxpool.Pool.QueryRowScan] at he, ?_⟩
    intro c' hc'
    simp [HealthHandler.Ready, pgxpool.Pool.QueryRowScan] at hc'

/-- C3: `Health` does not depend on the dependency.  Two handlers over pools in
any two states (reachable, failing, nil handle) produce the same outcome on
the same context: the handler returns, with status 200 and the body
`status: ok` plus the timestamp read from the clock, and it sends no
statement to the pool (`queries` is unchanged).  Likewise `GET /health` served
by the routers of two servers built over any two pools gives the same
result, status 200. -/
theorem C3_health_ignores_the_dependency (h₁ h₂ : HealthHandler) (c : Context)
    (db₁ db₂ : pgxpool.Pool) (debug : Bool) (swagger : HandlerFunc)
    (query clientIP : String) (now : time.Time) (log : List slog.Record) :
    h₁.Health c = h₂.Health c ∧
    h₁.Health c = .ok
      { c with
        Writer :=
          { status := 200,
            body := .json [("status", .str "ok"), ("timestamp", .str c.now.rfc3339)] } } ∧
    (∀ c', h₁.Health c = .ok c' → c'.queries = c.queries) ∧
    (server.New db₁ debug swagger).Router.ServeHTTP ⟨"GET", "/health", query, clientIP⟩ now log =
      (server.New db₂ debug swagger).Router.ServeHTTP ⟨"GET", "/health", query, clientIP⟩ now
        log ∧
    ((server.New db₁ debug swagger).Router.ServeHTTP ⟨"GET", "/health", query, clientIP⟩ now
        log).1 = .ok
      { Request := ⟨"GET", "/health", query, clientIP⟩,
        Writer :=
          { status := 200,
            body := .json [("status", .str "ok"), ("timestamp", .str now.rfc3339)] },
        now := now, queries := [] } := by
  refine ⟨rfl, rfl, ?_, rfl, rfl⟩
  intro c' hc'
  simp [HealthHandler.Health, Context.JSON] at hc'
  subst hc'
  rfl

end Health

section Middleware

open gin handler server

/-- The recovery layer always returns: whatever the rest of the chain does, the
outcome is a context, never a panic. -/
theorem Recovery_returns (next : Handler) (c : Context) (log : List slog.Record) :
    ∃ c', (Recovery next c log).1 = .ok c' := by
  unfold Recovery
  split
  · exact ⟨_, rfl⟩
  · exact ⟨_, rfl⟩

/-- Every route registered by `setupRoutes` carries the two middlewares of
`setupMiddleware`, recovery outermost. -/
theorem routes_carry_the_middleware (db : pgxpool.Pool) (debug : Bool) (swagger : HandlerFunc)
    (r : RouteInfo) (hr : r ∈ (server.New db debug swagger).Router.routes) :
    r.Handlers = [Recovery, requestLogger] := by
  have hroutes : (server.New db debug swagger).Router.routes =
      [{ Method := "GET", Path := "/health", Handlers := [Recovery, requestLogger],
         HandlerFunc := (NewHealthHandler db).Health },
       { Method := "GET", Path := "/ready", Handlers := [Recovery, requestLogger],
         HandlerFunc := (NewHealthHandler db).Ready },
       { Method := "GET", Path := "/swagger/*any", Handlers := [Recovery, requestLogger],
         HandlerFunc := swagger }] := rfl
  rw [hroutes] at hr
  simp only [List.mem_cons, List.mem_singleton, List.not_mem_nil, or_false] at hr
  rcases hr with rfl | rfl | rfl <;> rfl

/-- C4 as stated fails: with a nil pool handle `GET /ready` panics inside the
handler; the router still answers (status 500), but the logging middleware
has emitted no "request" record for the request, so the number of such
records is not one. -/
theorem C4_no_request_record_when_the_handler_panics :
    ¬ (((server.New .nilHandle false (fun c => .ok c)).Router.ServeHTTP
          ⟨"GET", "/ready", "", "10.0.0.1"⟩ ⟨0, "2024-01-01T00:00:00Z"⟩ []).2.countP
        (fun r => r.Message = "request") = 1) := by
  decide

/-- C4 amended: through the chain installed by `setupMiddleware` (recovery,
then the logging middleware, then the route handler `h`), a request whose
handler returns normally gets exactly one "request" record appended to the
log, carrying the method, the path and query read before the handler ran, the
status the handler left, the latency and the client address; a request whose
handler panics gets no "request" record: the log is left as it was and the
recovery layer answers with status 500. -/
theorem C4_one_request_record_when_the_handler_returns (db : pgxpool.Pool) (debug : Bool)
    (swagger h : HandlerFunc) (c : Context) (log : List slog.Record) :
    chain (server.New db debug swagger).Router.Handlers h.run c log =
      match h c with
      | .ok c' =>
        (.ok c',
          log ++
            [{ Level := "INFO", Message := "request",
               Attrs :=
                [("method", .String c'.Request.Method), ("path", .String c.Request.Path),
                  ("query", .String c.Request.RawQuery), ("status", .Int c'.Writer.status),
                  ("latency", .Duration (c'.now.unixNano - c.now.unixNano)),
                  ("client_ip", .String c'.Request.ClientIP)] }])
      | .error _ => (.ok (c.AbortWithStatus 500), log) := by
  show chain [Recovery, requestLogger] h.run c log = _
  cases hc : h c <;>
    simp [chain, Recovery, requestLogger, HandlerFunc.run, hc, requestRecord, time.Since,
      http.StatusInternalServerError]

/-- C5: when a route handler `h` panics with any value `v`, the chain installed
by `setupMiddleware` returns normally; the response is the context the
request came with, status set to 500, nothing added to the body, so it is
the same whatever `v` is; the log is left as it was.  On the router: a
request whose route handler panics is answered with status 500 and an empty
body; no request at all makes `ServeHTTP` panic; and a following
`GET /health` on the same router, continuing from the log the faulting
request left, returns normally with status 200. -/
theorem C5_recovery_contains_the_panic (db : pgxpool.Pool) (debug : Bool)
    (swagger h : HandlerFunc) (c : Context) (log : List slog.Record) (v : PanicValue)
    (hv : h c = .error v) :
    chain (server.New db debug swagger).Router.Handlers h.run c log =
      (.ok { c with Writer := { status := 500, body := c.Writer.body } }, log) ∧
    (∀ (req : http.Request) (now : time.Time) (r : RouteInfo) (v' : PanicValue),
      (server.New db debug swagger).Router.find req.Method req.Path = some r →
      r.HandlerFunc (Context.fresh req now) = .error v' →
      (server.New db debug swagger).Router.ServeHTTP req now log =
        (.ok { Request := req, Writer := { status := 500, body := .empty }, now := now,
               queries := [] }, log)) ∧
    (∀ (req : http.Request) (now : time.Time) (log' : List slog.Record),
      ∃ c', ((server.New db debug swagger).Router.ServeHTTP req now log').1 = .ok c') ∧
    ∀ (query clientIP : String) (now : time.Time),
      ((server.New db debug swagger).Router.ServeHTTP ⟨"GET", "/health", query, clientIP⟩ now
          (chain (server.New db debug swagger).Router.Handlers h.run c log).2).1 = .ok
        { Request := ⟨"GET", "/health", query, clientIP⟩,
          Writer :=
            { status := 200,
              body := .json [("status", .str "ok"), ("timestamp", .str now.rfc3339)] },
          now := now, queries := [] } := by
  refine ⟨?_, ?_, ?_, fun _ _ _ => rfl⟩
  · show chain [Recovery, requestLogger] h.run c log = _
    simp [chain, Recovery, requestLogger, HandlerFunc.run, hv, Context.AbortWithStatus,
      http.StatusInternalServerError]
  · intro req now r v' hfind hpanic
    have hH := routes_carry_the_middleware db debug swagger r
      (List.mem_of_find?_eq_some hfind)
    unfold Context.fresh at hpanic
    simp [Engine.ServeHTTP, hfind, hH, chain, Recovery, requestLogger, HandlerFunc.run, hpanic,
      Context.AbortWithStatus, Context.fresh, http.StatusInternalServerError]
  · intro req now log'
    cases hfind : (server.New db debug swagger).Router.find req.Method req.Path with
    | some r =>
      simp only [Engine.ServeHTTP, hfind]
      rw [routes_carry_the_middleware db debug swagger r (List.mem_of_find?_eq_some hfind)]
      exact Recovery_returns (requestLogger r.HandlerFunc.run) (Context.fresh req now) log'
    | none =>
      simp only [Engine.ServeHTTP, hfind]
      split
      · exact ⟨_, rfl⟩
      · exact Recovery_returns (requestLogger noRoute.run) (Context.fresh req now) log'

/-- C5 at `Ready` over a nil pool handle, which panics on a fresh `GET /ready`. -/
theorem C5_recovery_contains_the_panic_witness :
    chain (server.New .nilHandle false (fun c => .ok c)).Router.Handlers
        (HealthHandler.Ready ⟨.nilHandle⟩).run
        (Context.fresh ⟨"GET", "/ready", "", "10.0.0.1"⟩ ⟨0, "2024-01-01T00:00:00Z"⟩) [] =
      (.ok
        { Context.fresh ⟨"GET", "/ready", "", "10.0.0.1"⟩ ⟨0, "2024-01-01T00:00:00Z"⟩ with
          Writer := { status := 500, body := .empty } }, []) :=
  (C5_recovery_contains_the_panic .nilHandle false (fun c => .ok c)
    (HealthHandler.Ready ⟨.nilHandle⟩)
    (Context.fresh ⟨"GET", "/ready", "", "10.0.0.1"⟩ ⟨0, "2024-01-01T00:00:00Z"⟩) []
    "runtime error: invalid memory address or nil pointer dereference" rfl).1

end Middleware

section Lifecycle

open config cmd

/-- Every run of `runServe` produces one of the sequences of `possibleTraces`. -/
theorem runServe_trace_cases (w : World) : (runServe w).1 ∈ possibleTraces := by
  unfold possibleTraces
  unfold runServe
  split
  · simp
  · split
    · simp
    · cases w.listen <;> cases w.shutdown <;> cases w.listenerFirst <;> simp [startListener]

/-- An event found at a position of a trace: what holds of every initial
segment that ends just before an occurrence of `e` holds of `pre` when the trace splits as
`pre ++ e :: post`. -/
theorem split_before {t : List Event} {e : Event} {P : List Event → Prop}
    (hP : ∀ i, i < t.length → t[i]? = some e → P (t.take i)) :
    ∀ pre post, t = pre ++ e :: post → P pre := by
  intro pre post ht
  subst ht
  have hget : (pre ++ e :: post)[pre.length]? = some e := by
    rw [List.getElem?_append_right (Nat.le_refl _)]
    simp
  have h := hP pre.length (by simp) hget
  simpa using h

/-- C6: the exit code of the serve command is 0 exactly when `Load` succeeds,
`Connect` succeeds on the loaded URL, `ListenAndServe` ends only with the
"server closed" condition and `Shutdown` returns no error; in every other
case (load failure, connect failure, listener error, shutdown error) it
is 1. -/
theorem C6_exit_code (w : World) :
    (exitCode w = 0 ↔
      ∃ cfg, Load w.unmarshal = .ok cfg ∧ (∃ db, w.connect cfg.DatabaseURL = .ok db) ∧
        w.listen = none ∧ w.shutdown = none) ∧
    (exitCode w = 0 ∨ exitCode w = 1) ∧
    ((∃ err, Load w.unmarshal = .error err) → exitCode w = 1) ∧
    (∀ cfg err, Load w.unmarshal = .ok cfg → w.connect cfg.DatabaseURL = .error err →
      exitCode w = 1) ∧
    (∀ cfg db err, Load w.unmarshal = .ok cfg → w.connect cfg.DatabaseURL = .ok db →
      w.listen = some err → exitCode w = 1) ∧
    (∀ cfg db err, Load w.unmarshal = .ok cfg → w.connect cfg.DatabaseURL = .ok db →
      w.listen = none → w.shutdown = some err → exitCode w = 1) := by
  unfold exitCode main runServe
  cases hl : Load w.unmarshal with
  | error e => simp
  | ok cfg =>
    cases hc : w.connect cfg.DatabaseURL with
    | error e => simp [hc]
    | ok db =>
      cases hs : w.listen <;> cases hd : w.shutdown <;> simp [hc]
      all_goals
        intro cfg' err h
        subst h
        simp [hc]

set_option maxRecDepth 100000 in
/-- In each possible trace, `ListenAndServe` is preceded by a successful load
and a successful connect, and a connect by a successful load. -/
theorem possibleTraces_ordered :
    ∀ t ∈ possibleTraces,
      (∀ i, i < t.length → t[i]? = some Event.listenAndServe →
        Event.loadConfig true ∈ t.take i ∧ Event.connect true ∈ t.take i) ∧
      (∀ ok, ∀ i, i < t.length → t[i]? = some (Event.connect ok) →
        Event.loadConfig true ∈ t.take i) := by
  decide

/-- C7: in every run of `runServe`, each call of `ListenAndServe` (the listener
bind) comes after a successful `config.Load` and a successful
`database.Connect`, and each `database.Connect` comes after a successful
`config.Load`.  When the unmarshalled database URL is empty the run consists
of the failed load alone and `runServe` returns its error: no connection,
no listener.  When `Connect` fails the run ends with the failed connect and
`runServe` returns its error: no listener. -/
theorem C7_startup_order (w : World) :
    (∀ pre post, (runServe w).1 = pre ++ Event.listenAndServe :: post →
      Event.loadConfig true ∈ pre ∧ Event.connect true ∈ pre) ∧
    (∀ ok pre post, (runServe w).1 = pre ++ Event.connect ok :: post →
      Event.loadConfig true ∈ pre) ∧
    (∀ cfg, w.unmarshal = .ok cfg → cfg.DatabaseURL = "" →
      runServe w =
        ([.loadConfig false],
          .returned (some ("failed to load config: " ++ errDatabaseURLRequired)))) ∧
    (∀ cfg err, Load w.unmarshal = .ok cfg → w.connect cfg.DatabaseURL = .error err →
      runServe w =
        ([.loadConfig true, .log "starting server", .connect false],
          .returned (some ("failed to connect to database: " ++ err)))) := by
  have key := possibleTraces_ordered _ (runServe_trace_cases w)
  refine ⟨split_before key.1, fun ok => split_before (key.2 ok), ?_, ?_⟩
  · intro cfg hu he
    simp [runServe, Load, hu, Config.Validate, he]
  · intro cfg err hl hc
    simp [runServe, hl, hc]

/-- C8 fails on the listener-failure path: in the run where configuration and
connection succeed and `ListenAndServe` returns a bind error, the process
exits with code 1 and `db.Close` has not been called, whereas the clean and
the forced shutdown runs call it once.  In general, after a successful
connect `db.Close` is called once when the listener ends with "server
closed" and not at all when it fails. -/
theorem C8_listener_failure_skips_db_close :
    (Event.connect true ∈ trace examples.listenerFails ∧
      (trace examples.listenerFails).count Event.dbClose = 0 ∧
      exitCode examples.listenerFails = 1) ∧
    (trace examples.cleanShutdown).count Event.dbClose = 1 ∧
    (trace examples.forcedShutdown).count Event.dbClose = 1 ∧
    ∀ w : World, Event.connect true ∈ trace w →
      (trace w).count Event.dbClose = if w.listen = none then 1 else 0 := by
  refine ⟨by decide, by decide, by decide, ?_⟩
  intro w
  unfold trace main runServe
  cases hl : Load w.unmarshal with
  | error e => simp
  | ok cfg =>
    cases hc : w.connect cfg.DatabaseURL with
    | error e => simp [hc]
    | ok db =>
      cases w.listen <;> cases w.shutdown <;> cases w.listenerFirst <;>
        simp [hc, startListener, List.count_cons]

end Lifecycle

end GoRestApi
